import Mathlib

/-!
Shallow embedding of the diagnosis-viewer core of `src/assets/js/installer-tools.js`
(the IIFE after the controller-dataset section): outcome codec, confidence chip,
cause ranking, bullet/episode renderers, timeline chart projection, tooltip
formatting, and the analyze-request trigger lifecycle.

JavaScript numbers appearing in the payload (`score`, cause weights, `hum_near`)
are modelled as exact rationals `ℚ`; nullable fields (`hum_near`, episode
timestamps, optional arrays) as `Option`; DOM regions as plain records of the
text written into them.  Concrete rationals in theorems are written with `mkRat`.
-/

/-! ### Decimal number formatting (JS template interpolation and `toFixed`) -/

/-- The character for one decimal digit `d < 10` (codepoint 48 is `0`). -/
def digitChar (d : Nat) : Char := Char.ofNat (48 + d)

/-- Decimal digits of `n`, most significant first; structural recursion on a
fuel bound (any `fuel > n` is enough since `n / 10 < n` for `n ≥ 10`). -/
def natDigitsAux : Nat → Nat → List Char
  | 0, _ => []
  | fuel+1, n =>
    if n < 10 then [digitChar n]
    else natDigitsAux fuel (n / 10) ++ [digitChar (n % 10)]

/-- Decimal representation of a natural number, as JS template interpolation
prints the non-negative integers of the payload (`duration_ms`, `count`). -/
def natRepr (n : Nat) : String := String.mk (natDigitsAux (n + 1) n)

/-- Left-pad a digit string with zeros to length `f`. -/
def padZeros (f : Nat) (s : String) : String :=
  String.mk (List.replicate (f - s.length) (digitChar 0)) ++ s

/-- Digit part of `Number.prototype.toFixed(f)` for the non-negative rational
`num / den` (`den ≠ 0`): the integer `n` nearest `num/den * 10^f`, ties toward
the larger `n` (ECMA-262), i.e. `⌊num/den * 10^f + 1/2⌋`, printed with `f`
digits after the point.  Computed purely on numerator and denominator, which
leaves the value invariant under scaling of `num, den`. -/
def fixedDigits (f : Nat) (num den : Nat) : String :=
  let n : Nat := (2 * num * 10 ^ f + den) / (2 * den)
  if f = 0 then natRepr n
  else natRepr (n / 10 ^ f) ++ "." ++ padZeros f (natRepr (n % 10 ^ f))

/-- `x.toFixed(f)` of JS for a rational `x`: ECMA-262 negates first, so the
rounding is half away from zero. -/
def toFixedQ (f : Nat) (x : ℚ) : String :=
  if x.num < 0 then "-" ++ fixedDigits f (-x.num).toNat x.den
  else fixedDigits f x.num.toNat x.den

/-- `pct` (source line 257): `(x * 100).toFixed(0) + "%"`.  The factor 100 is
folded into the numerator, which represents the same rational as `x * 100`. -/
def pct (x : ℚ) : String :=
  (if x.num < 0 then "-" ++ fixedDigits 0 ((-x.num).toNat * 100) x.den
   else fixedDigits 0 (x.num.toNat * 100) x.den) ++ "%"

/-! ### HTML escaping (`escapeHtml`, source line 261) -/

/-- Replacement for a single character under the regex replace
`/[&<>"']/g`: the five markup characters become entities, everything else is
kept.  Codepoint 34 is the double quote, 39 the apostrophe. -/
def escChar (c : Char) : List Char :=
  if c = '&' then "&amp;".data
  else if c = '<' then "&lt;".data
  else if c = '>' then "&gt;".data
  else if c = Char.ofNat 34 then "&quot;".data
  else if c = Char.ofNat 39 then "&#39;".data
  else [c]

/-- `escapeHtml` (source line 261): global per-character replacement. -/
def escapeHtml (s : String) : String := String.mk (s.data.flatMap escChar)

/-- `k.replaceAll("_", " ")` used on cause identifiers (source line 280). -/
def underscoreToSpace (s : String) : String :=
  String.mk (s.data.map (fun c => if c = '_' then ' ' else c))

/-! ### Outcome codec (`outcomeToY` line 308, `yTickLabel` line 320) -/

/-- A value `map[outcome] ?? -2` can produce.  The object literal `map` is a
plain object, so a computed property access that misses its own keys
continues along the prototype chain into `Object.prototype`: for a property
name defined there the lookup yields that inherited member — a function (or,
for `__proto__`, the prototype object itself) — which is not nullish, so
`?? -2` does not fire.  `num` is a JS number result; `protoMember name` is
the inherited `Object.prototype` member found under `name`. -/
inductive YValue where
  | num (n : Int)
  | protoMember (name : String)
  deriving DecidableEq

/-- The property names an own-key miss on a plain object literal finds on
`Object.prototype` (ECMA-262 §20.2.3 plus the Annex B accessors): each is a
non-nullish function value, except `__proto__` whose getter returns the
prototype object — also non-nullish. -/
def objectPrototypeKeys : List String :=
  ["constructor", "hasOwnProperty", "isPrototypeOf", "propertyIsEnumerable",
   "toLocaleString", "toString", "valueOf", "__proto__",
   "__defineGetter__", "__defineSetter__", "__lookupGetter__", "__lookupSetter__"]

/-- `outcomeToY` (source line 308): object lookup `map[outcome] ?? -2`.
The five own keys of the literal shadow the prototype; a miss that lands on
an `Object.prototype` property name returns that inherited member (the
`?? -2` default sees a non-nullish value); every other string reads
`undefined` and takes the `?? -2` default. -/
def outcomeToY (outcome : String) : YValue :=
  if outcome = "GOOD_CLOSE" then .num 2
  else if outcome = "MARGINAL_CLOSE" then .num 1
  else if outcome = "LATCH_MISS" then .num 0
  else if outcome = "HARD_FAIL" then .num (-1)
  else if outcome = "UNKNOWN" then .num (-2)
  else if outcome ∈ objectPrototypeKeys then .protoMember outcome
  else .num (-2)

/-- `yTickLabel` (source line 320) on an integer axis tick: lookup
`rev[String(v)] ?? ""` in an object keyed by the decimal strings "2", "1",
"0", "-1", "-2".  `String` is injective on integers and an integer's decimal
string never collides with an `Object.prototype` property name, so the
lookup compares `v` itself; the `?? ""` default gives the empty string for
every other integer. -/
def yTickLabel (v : Int) : String :=
  if v = 2 then "GOOD"
  else if v = 1 then "MARGINAL"
  else if v = 0 then "LATCH MISS"
  else if v = -1 then "HARD FAIL"
  else if v = -2 then "UNKNOWN"
  else ""

/-- `yTickLabel` applied to a stored `y` value, as the tooltip does
(source line 393).  For a number it is the integer-tick lookup; for an
inherited `Object.prototype` member, `String(v)` is the member's string form
("function toString() ..." or "[object Object]"), which is neither an own
key of `rev` nor itself an `Object.prototype` property name, so the lookup
reads `undefined` and `?? ""` yields the empty string. -/
def yTickLabelJS (v : YValue) : String :=
  match v with
  | .num n => yTickLabel n
  | .protoMember _ => ""

/-! ### Payload data model (§3 of the response contract) -/

/-- One element of `diagnosis.timeline_events` as read by `renderChart`
(source line 331): outcome string, duration, nullable humidity, flags,
timestamp. -/
structure AttemptRecord where
  outcome : String
  duration_ms : Nat
  hum_near : Option ℚ
  slow : Bool
  wet : Bool
  ts : String
  deriving DecidableEq

/-- One plot point built by `renderChart` (source line 332); `y` is whatever
`outcomeToY` returned, so it is a `YValue`, not necessarily a number. -/
structure PlotPoint where
  x : Nat
  y : YValue
  dur : Nat
  hum : Option ℚ
  slow : Bool
  wet : Bool
  ts : String
  deriving DecidableEq

/-- One element of `diagnosis.episodes` as read by `renderEpisodes`
(source line 296); `none` models a null/undefined timestamp. -/
structure Episode where
  kind : String
  start_ts : Option String
  end_ts : Option String
  count : Nat
  deriving DecidableEq

/-- The text content written into a display region together with its
`muted` class state (`setMuted`, source line 252). -/
structure RenderedRegion where
  content : String
  muted : Bool
  deriving DecidableEq

/-- The confidence chip after `chipConfidence` ran: its text and the single
`chip-*` severity class left on it. -/
structure ChipState where
  text : String
  tier : String
  deriving DecidableEq

/-! ### Confidence chip (`chipConfidence`, source line 267) -/

/-- `chipConfidence(level, score)` (source line 267): text
`Confidence: <level> (<score.toFixed(2)>)`; exact-match tier chain
`HIGH`, `MED`, else low. -/
def chipConfidence (level : String) (score : ℚ) : ChipState :=
  { text := "Confidence: " ++ level ++ " (" ++ toFixedQ 2 score ++ ")",
    tier :=
      if level = "HIGH" then "chip-high"
      else if level = "MED" then "chip-med"
      else "chip-low" }

/-! ### Cause ranking (`renderCauses`, source line 275) -/

/-- The order produced by the comparator `(a,b) => b[1] - a[1]`: `a` may stay
before `b` exactly when the comparator is `≤ 0`, i.e. `b.2 ≤ a.2`. -/
def causesLE (a b : String × ℚ) : Bool := decide (b.2 ≤ a.2)

/-- `Object.entries(scores).sort((a,b) => b[1] - a[1])` (source line 276):
`scores` in input-iteration order, stably sorted descending by weight
(`Array.prototype.sort` is stable). -/
def sortedCauses (scores : List (String × ℚ)) : List (String × ℚ) :=
  scores.mergeSort causesLE

/-- One `.row` div of the causes list (source line 281): escaped cause name
with underscores replaced by spaces, and the weight as a percentage. -/
def causeRow (k : String) (v : ℚ) : String :=
  "<div class=\"row\"><span>" ++ escapeHtml (underscoreToSpace k) ++
    "</span><span class=\"val\">" ++ pct v ++ "</span></div>"

/-- `renderCauses(scores)` (source line 275): the joined rows of the sorted
entries; the region is always un-muted. -/
def renderCauses (scores : List (String × ℚ)) : RenderedRegion :=
  { content := String.join ((sortedCauses scores).map (fun kv => causeRow kv.1 kv.2)),
    muted := false }

/-! ### Bullet lists (`renderBullets`, source line 286) -/

/-- One `<li>` of a bullet list (source line 292). -/
def bulletLine (x : String) : String := "<li>" ++ escapeHtml x ++ "</li>"

/-- `renderBullets(el, arr)` (source line 286): `!arr || !arr.length` (absent
or empty array) gives the muted "None" sentinel, otherwise a `<ul>` of one
escaped `<li>` per element in order. -/
def renderBullets (arr : Option (List String)) : RenderedRegion :=
  match arr with
  | none => { content := "None", muted := true }
  | some l =>
    if l.isEmpty then { content := "None", muted := true }
    else { content := "<ul>" ++ String.join (l.map bulletLine) ++ "</ul>", muted := false }

/-! ### Episodes (`renderEpisodes`, source line 296) -/

/-- JS `s || "?"` on a nullable string: null/undefined and the empty string
are falsy and give "?". -/
def tsOrQuestion (s : Option String) : String :=
  match s with
  | none => "?"
  | some t => if t = "" then "?" else t

/-- One `<li>` of the episodes list (source line 303). -/
def episodeLine (e : Episode) : String :=
  "<li><strong>" ++ escapeHtml e.kind ++ "</strong> — " ++
    escapeHtml (tsOrQuestion e.start_ts) ++ " → " ++
    escapeHtml (tsOrQuestion e.end_ts) ++ " (events=" ++ natRepr e.count ++ ")</li>"

/-- `renderEpisodes(episodes)` (source line 296): absent or empty gives the
muted "None detected." sentinel, otherwise a `<ul>` of one line per episode
in input order. -/
def renderEpisodes (episodes : Option (List Episode)) : RenderedRegion :=
  match episodes with
  | none => { content := "None detected.", muted := true }
  | some l =>
    if l.isEmpty then { content := "None detected.", muted := true }
    else { content := "<ul>" ++ String.join (l.map episodeLine) ++ "</ul>", muted := false }

/-! ### Timeline chart projection (`renderChart`, source line 331) -/

/-- `timeline.map((t, idx) => ({...}))` (source line 332): one point per
record, 1-based x, ordinal y, auxiliary fields carried through. -/
def chartPoints (timeline : List AttemptRecord) : List PlotPoint :=
  timeline.mapIdx (fun idx t =>
    { x := idx + 1, y := outcomeToY t.outcome, dur := t.duration_ms,
      hum := t.hum_near, slow := t.slow, wet := t.wet, ts := t.ts })

/-- The per-point color switch (source line 342).  The comparisons are JS
strict equality `p.y === n`: an inherited prototype member (a function or
object) is never strictly equal to a number, so such a `y` falls through to
the neutral color, exactly as `YValue` equality does. -/
def pointColor (p : PlotPoint) : String :=
  if p.y = YValue.num (-1) then "#ff6b6b"
  else if p.y = YValue.num 0 then "#ffd166"
  else if p.y = YValue.num 1 then "#8ecae6"
  else if p.y = YValue.num 2 then "#AEF359"
  else "#9FB0C2"

/-- `points.map(p => ...)` (source line 342): the color array is positionally
parallel to the points array. -/
def chartColors (points : List PlotPoint) : List String := points.map pointColor

/-! ### Tooltip (label callback, source line 386) -/

/-- The humidity fragment (source line 388): identity test against
null/undefined, so a present value 0 is formatted, not treated as absent. -/
def tooltipHum (hum : Option ℚ) : String :=
  match hum with
  | none => "n/a"
  | some h => toFixedQ 1 h ++ "%"

/-- The flags fragment (source line 389):
`[slow ? "SLOW" : null, wet ? "WET" : null].filter(Boolean).join(" ")`. -/
def tooltipFlags (slow wet : Bool) : String :=
  String.intercalate " "
    (List.filterMap id
      [if slow then some "SLOW" else none, if wet then some "WET" else none])

/-- The tooltip label (source line 393); note the literal space before the
conditional flags fragment in the template. -/
def tooltipLabel (p : PlotPoint) : String :=
  let hum := tooltipHum p.hum
  let flags := tooltipFlags p.slow p.wet
  yTickLabelJS p.y ++ " | dur=" ++ natRepr p.dur ++ "ms | hum~" ++ hum ++ " " ++
    (if flags = "" then "" else "| " ++ flags)

/-! ### Analyze trigger lifecycle (`analyze` line 405, click handler line 440) -/

/-- The analyze button's mutable state: `disabled` and its text. -/
structure TriggerState where
  disabled : Bool
  label : String
  deriving DecidableEq

/-- The parsed response body as far as control flow reads it: the `ok` flag
and the optional error message surfaced on the `ok:false` path. -/
structure AnalyzeResponse where
  ok : Bool
  error : Option String
  deriving DecidableEq

/-- Body of `async function analyze(file)` (source line 405) as explicit state
passing on the trigger.  `transport` is the result of
`await fetch(...)`/`await res.json()`: `.error` models a rejection (network
failure, non-success decoding, malformed body) thrown before the re-enable
lines run; `render` models the rendering calls on a parsed body, which may
throw (e.g. inside the chart library).  The returned `Except` is the
promise: `.error` is a rejection the caller's `.catch` sees. -/
def analyzeBody (transport : Except Unit AnalyzeResponse)
    (render : AnalyzeResponse → Except Unit Unit) (_s : TriggerState) :
    Except Unit Unit × TriggerState :=
  let busy : TriggerState := { disabled := true, label := "Analyzing…" }
  match transport with
  | .error e => (.error e, busy)
  | .ok data =>
    let restored : TriggerState := { disabled := false, label := "Analyze" }
    if data.ok = false then (.ok (), restored)
    else
      match render data with
      | .error e => (.error e, restored)
      | .ok _ => (.ok (), restored)

/-- The click handler (source line 440): `analyze(f).catch(...)` restores the
trigger's text and enabled state when the promise rejects. -/
def clickAnalyze (transport : Except Unit AnalyzeResponse)
    (render : AnalyzeResponse → Except Unit Unit) (s : TriggerState) : TriggerState :=
  match analyzeBody transport render s with
  | (.ok _, s1) => s1
  | (.error _, _) => { disabled := false, label := "Analyze" }

/-! ## Claims -/

/-- C1 counterexample: the input "toString" is not one of the five
recognized outcome strings, yet `map["toString"]` finds the inherited,
non-nullish `Object.prototype.toString`, so the `?? -2` default never fires
and `outcomeToY` does not return the ordinal -2 there. -/
theorem C1_outcomeToY_counterexample :
    ("toString" ∉ ["GOOD_CLOSE", "MARGINAL_CLOSE", "LATCH_MISS", "HARD_FAIL", "UNKNOWN"]) ∧
    outcomeToY "toString" = YValue.protoMember "toString" ∧
    outcomeToY "toString" ≠ YValue.num (-2) := by
  decide

/-- C1 (amended): `outcomeToY` is total and never raises an error; every
input string that is neither one of the five recognized outcome strings nor
an `Object.prototype` property name picked up by the lookup's prototype
chain (the empty string among them) maps to the ordinal -2.  Inherited
names instead yield the inherited member, still without an error. -/
theorem C1_outcomeToY_default (s : String)
    (hout : s ∉ ["GOOD_CLOSE", "MARGINAL_CLOSE", "LATCH_MISS", "HARD_FAIL", "UNKNOWN"])
    (hproto : s ∉ objectPrototypeKeys) :
    outcomeToY s = YValue.num (-2) := by
  simp only [List.mem_cons, List.mem_singleton, not_or] at hout
  obtain ⟨h1, h2, h3, h4, h5, -⟩ := hout
  simp [outcomeToY, h1, h2, h3, h4, h5, hproto]

/-- Witness for amended C1 at the empty string. -/
theorem C1_outcomeToY_default_witness :
    ("" ∉ ["GOOD_CLOSE", "MARGINAL_CLOSE", "LATCH_MISS", "HARD_FAIL", "UNKNOWN"]) ∧
      ("" ∉ objectPrototypeKeys) ∧ outcomeToY "" = YValue.num (-2) :=
  ⟨by decide, by decide, C1_outcomeToY_default "" (by decide) (by decide)⟩

/-- C2: on the five recognized outcomes — all own keys, which shadow the
prototype — `outcomeToY` yields exactly the documented ordinals and the
label lookup maps each result back to the documented display label. -/
theorem C2_codec_roundtrip :
    (outcomeToY "GOOD_CLOSE" = YValue.num 2 ∧
      yTickLabelJS (outcomeToY "GOOD_CLOSE") = "GOOD") ∧
    (outcomeToY "MARGINAL_CLOSE" = YValue.num 1 ∧
      yTickLabelJS (outcomeToY "MARGINAL_CLOSE") = "MARGINAL") ∧
    (outcomeToY "LATCH_MISS" = YValue.num 0 ∧
      yTickLabelJS (outcomeToY "LATCH_MISS") = "LATCH MISS") ∧
    (outcomeToY "HARD_FAIL" = YValue.num (-1) ∧
      yTickLabelJS (outcomeToY "HARD_FAIL") = "HARD FAIL") ∧
    (outcomeToY "UNKNOWN" = YValue.num (-2) ∧
      yTickLabelJS (outcomeToY "UNKNOWN") = "UNKNOWN") := by
  decide

/-- C3 counterexample: at the ordinal 3, which is outside {2,1,0,-1,-2},
`yTickLabel` returns the empty string, not the UNKNOWN label the claim
states. -/
theorem C3_yTickLabel_counterexample :
    yTickLabel 3 = "" ∧ yTickLabel 3 ≠ "UNKNOWN" := by
  decide

/-- C3 (amended): for every integer outside {2, 1, 0, -1, -2}, `yTickLabel`
returns the empty string (a blank tick label). -/
theorem C3_yTickLabel_outside (v : Int)
    (h : v ∉ ([2, 1, 0, -1, -2] : List Int)) : yTickLabel v = "" := by
  simp only [List.mem_cons, List.mem_singleton, not_or] at h
  obtain ⟨h1, h2, h3, h4, h5, -⟩ := h
  simp [yTickLabel, h1, h2, h3, h4, h5]

/-- Witness for amended C3 at the ordinal 3. -/
theorem C3_yTickLabel_outside_witness :
    ((3 : Int) ∉ ([2, 1, 0, -1, -2] : List Int)) ∧ yTickLabel 3 = "" :=
  ⟨by decide, C3_yTickLabel_outside 3 (by decide)⟩

/-- C4: the timeline projection yields one point per record (and one color per
point), the point at 0-based position `i` has `x = i + 1`,
`y = outcomeToY` of the record's outcome, carries `duration_ms`, `hum_near`,
`slow`, `wet`, `ts` through unchanged, and its color is selected by `y`
exactly as the source's color switch states. -/
theorem C4_chart_projection (timeline : List AttemptRecord) (i : Nat)
    (h : i < timeline.length) :
    (chartPoints timeline).length = timeline.length ∧
    (chartColors (chartPoints timeline)).length = timeline.length ∧
    (chartPoints timeline)[i]? = some
      { x := i + 1, y := outcomeToY timeline[i].outcome,
        dur := timeline[i].duration_ms, hum := timeline[i].hum_near,
        slow := timeline[i].slow, wet := timeline[i].wet, ts := timeline[i].ts } ∧
    (chartColors (chartPoints timeline))[i]? = some
      (if outcomeToY timeline[i].outcome = YValue.num (-1) then "#ff6b6b"
       else if outcomeToY timeline[i].outcome = YValue.num 0 then "#ffd166"
       else if outcomeToY timeline[i].outcome = YValue.num 1 then "#8ecae6"
       else if outcomeToY timeline[i].outcome = YValue.num 2 then "#AEF359"
       else "#9FB0C2") := by
  have hp : i < (chartPoints timeline).length := by
    simpa [chartPoints, List.length_mapIdx] using h
  have hc : i < (chartColors (chartPoints timeline)).length := by
    simpa [chartColors, chartPoints, List.length_mapIdx] using h
  refine ⟨by simp [chartPoints, List.length_mapIdx],
          by simp [chartColors, chartPoints, List.length_mapIdx], ?_, ?_⟩
  · rw [List.getElem?_eq_getElem hp]
    simp [chartPoints, List.getElem_mapIdx]
  · rw [List.getElem?_eq_getElem hc]
    simp [chartColors, chartPoints, List.getElem_map, List.getElem_mapIdx, pointColor]

/-- Witness for C4 on the one-record timeline of the spec's scenario
(a HARD_FAIL attempt). -/
theorem C4_chart_projection_witness :
    (chartPoints [⟨"HARD_FAIL", 1200, none, true, false, "t1"⟩])[0]? =
      some { x := 1, y := YValue.num (-1), dur := 1200, hum := none,
             slow := true, wet := false, ts := "t1" } ∧
    (chartColors (chartPoints [⟨"HARD_FAIL", 1200, none, true, false, "t1"⟩]))[0]? =
      some "#ff6b6b" := by
  have h := C4_chart_projection [⟨"HARD_FAIL", 1200, none, true, false, "t1"⟩] 0 (by decide)
  exact ⟨by simpa using h.2.2.1, by simpa using h.2.2.2⟩

/-- C6: the confidence chip text is
`Confidence: <level> (<score to 2 decimal places>)`, the tier is selected by
exact match on the level with everything other than HIGH and MED falling to
the low tier, and the spec's scenario (HIGH, 0.913) yields
`Confidence: HIGH (0.91)` with the high tier. -/
theorem C6_chip_confidence (level : String) (score : ℚ) :
    (chipConfidence level score).text =
      "Confidence: " ++ level ++ " (" ++ toFixedQ 2 score ++ ")" ∧
    (chipConfidence "HIGH" score).tier = "chip-high" ∧
    (chipConfidence "MED" score).tier = "chip-med" ∧
    (level ≠ "HIGH" → level ≠ "MED" → (chipConfidence level score).tier = "chip-low") ∧
    chipConfidence "HIGH" (mkRat 913 1000) =
      { text := "Confidence: HIGH (0.91)", tier := "chip-high" } := by
  refine ⟨rfl, by simp [chipConfidence], by simp [chipConfidence], ?_, by decide⟩
  intro h1 h2
  simp [chipConfidence, h1, h2]

/-- Witness for C6: an unrecognized level string ("LOW" is not special-cased)
falls to the low tier. -/
theorem C6_chip_confidence_witness :
    (chipConfidence "LOW" (mkRat 1 2)).tier = "chip-low" :=
  (C6_chip_confidence "LOW" (mkRat 1 2)).2.2.2.1 (by decide) (by decide)

/-- C7: an absent or empty episode sequence renders the muted
"None detected." sentinel; a non-empty sequence renders un-muted with exactly
one line per episode in input order, each of the form
`<kind> — <start_ts or ?> → <end_ts or ?> (events=<count>)`. -/
theorem C7_render_episodes (episodes : List Episode) (i : Nat)
    (h : i < episodes.length) :
    renderEpisodes none = { content := "None detected.", muted := true } ∧
    renderEpisodes (some []) = { content := "None detected.", muted := true } ∧
    (renderEpisodes (some episodes)).muted = false ∧
    (renderEpisodes (some episodes)).content =
      "<ul>" ++ String.join (episodes.map episodeLine) ++ "</ul>" ∧
    (episodes.map episodeLine).length = episodes.length ∧
    (episodes.map episodeLine)[i]? = some (episodeLine episodes[i]) ∧
    episodeLine ⟨"stall", some "t1", none, 3⟩ =
      "<li><strong>stall</strong> — t1 → ? (events=3)</li>" := by
  have hne : episodes ≠ [] := List.ne_nil_of_length_pos (by omega)
  have hm : i < (episodes.map episodeLine).length := by simpa using h
  refine ⟨rfl, rfl, ?_, ?_, by simp, ?_, by decide⟩
  · simp [renderEpisodes, List.isEmpty_eq_false.mpr hne]
  · simp [renderEpisodes, List.isEmpty_eq_false.mpr hne]
  · rw [List.getElem?_eq_getElem hm]
    simp [List.getElem_map]

/-- Witness for C7 on a one-episode list. -/
theorem C7_render_episodes_witness :
    (renderEpisodes (some [⟨"stall", some "t1", none, 3⟩])).muted = false ∧
    (renderEpisodes (some [⟨"stall", some "t1", none, 3⟩])).content =
      "<ul>" ++ String.join (([⟨"stall", some "t1", none, 3⟩] : List Episode).map episodeLine) ++ "</ul>" := by
  have h := C7_render_episodes [⟨"stall", some "t1", none, 3⟩] 0 (by decide)
  exact ⟨h.2.2.1, h.2.2.2.1⟩

/-- C8: on every exit path of the analyze request — rejected transport or
parse, reported `ok:false` failure, successful render, and a rendering
exception — the click handler leaves the trigger enabled with its label
restored; no path leaves it disabled. -/
theorem C8_trigger_reenabled (transport : Except Unit AnalyzeResponse)
    (render : AnalyzeResponse → Except Unit Unit) (s : TriggerState) :
    clickAnalyze transport render s = { disabled := false, label := "Analyze" } := by
  rcases transport with e | data
  · rfl
  · rcases hok : data.ok with _ | _
    · simp [clickAnalyze, analyzeBody, hok]
    · rcases hr : render data with e | u <;>
        simp [clickAnalyze, analyzeBody, hok, hr]

/-- C10: the tooltip renders humidity as "n/a" exactly when the carried
`hum` is absent (null/undefined); a present value — including 0 — is
formatted to one decimal place with a percent sign, and the tooltip line is
assembled around that fragment. -/
theorem C10_tooltip_humidity (p : PlotPoint) :
    (p.hum = none → tooltipHum p.hum = "n/a") ∧
    (∀ q : ℚ, p.hum = some q →
      tooltipHum p.hum = toFixedQ 1 q ++ "%" ∧ tooltipHum p.hum ≠ "n/a") ∧
    tooltipHum (some 0) = "0.0%" ∧
    tooltipLabel p =
      yTickLabelJS p.y ++ " | dur=" ++ natRepr p.dur ++ "ms | hum~" ++ tooltipHum p.hum ++ " " ++
        (if tooltipFlags p.slow p.wet = "" then "" else "| " ++ tooltipFlags p.slow p.wet) := by
  refine ⟨fun hnone => by simp [tooltipHum, hnone], fun q hq => ⟨by simp [tooltipHum, hq], ?_⟩,
          by decide, rfl⟩
  simp only [tooltipHum, hq]
  intro heq
  have h2 := congrArg (fun s => s.data.getLast?) heq
  simp only [String.data_append] at h2
  rw [List.getLast?_concat] at h2
  simp at h2

/-- Witness for C10 at a concrete point whose humidity is present. -/
theorem C10_tooltip_humidity_witness :
    tooltipHum (some (mkRat 5 1)) = toFixedQ 1 (mkRat 5 1) ++ "%" ∧
    tooltipHum (some (mkRat 5 1)) ≠ "n/a" :=
  (C10_tooltip_humidity ⟨1, YValue.num (-1), 1200, some (mkRat 5 1), true, false, "t1"⟩).2.1
    (mkRat 5 1) rfl

/-- Transitivity of the cause comparator's order. -/
theorem causesLE_trans (a b c : String × ℚ) :
    causesLE a b → causesLE b c → causesLE a c := by
  simp only [causesLE, decide_eq_true_eq]
  exact fun hab hbc => le_trans hbc hab

/-- Totality of the cause comparator's order. -/
theorem causesLE_total (a b : String × ℚ) : causesLE a b || causesLE b a := by
  simp only [causesLE, Bool.or_eq_true, decide_eq_true_eq]
  exact le_total b.2 a.2

/-- C5: the cause ranking keeps one pair per input entry (a permutation),
adjacent output weights are non-increasing, equal-weight entries keep their
input order (stability, stated per weight class), the rendered region is the
join of one row per sorted entry, identifiers are displayed with underscores
replaced by spaces, and weights render as rounded integer percentages
(0.873 as "87%", 0.2 as "20%"). -/
theorem C5_cause_ranking (scores : List (String × ℚ)) (w : ℚ) :
    List.Chain' (fun a b => b.2 ≤ a.2) (sortedCauses scores) ∧
    (sortedCauses scores).Perm scores ∧
    (sortedCauses scores).filter (fun kv => decide (kv.2 = w)) =
      scores.filter (fun kv => decide (kv.2 = w)) ∧
    (renderCauses scores).content =
      String.join ((sortedCauses scores).map (fun kv => causeRow kv.1 kv.2)) ∧
    underscoreToSpace "humidity_lock" = "humidity lock" ∧
    pct (mkRat 873 1000) = "87%" ∧ pct (mkRat 2 10) = "20%" := by
  have hsorted := List.sorted_mergeSort causesLE_trans causesLE_total scores
  refine ⟨?_, List.mergeSort_perm scores causesLE, ?_, rfl, by decide, by decide, by decide⟩
  · exact (hsorted.imp (by simp only [causesLE, decide_eq_true_eq]; exact id)).chain'
  · set p : String × ℚ → Bool := fun kv => decide (kv.2 = w) with hp
    have hpair : (scores.filter p).Pairwise (fun a b => causesLE a b = true) := by
      apply List.pairwise_of_forall_mem_list
      intro a ha b hb
      have ha2 : a.2 = w := by simpa [hp] using (List.mem_filter.mp ha).2
      have hb2 : b.2 = w := by simpa [hp] using (List.mem_filter.mp hb).2
      simp [causesLE, ha2, hb2]
    have hsub : (scores.filter p).Sublist (scores.mergeSort causesLE) :=
      List.sublist_mergeSort causesLE_trans causesLE_total hpair (List.filter_sublist scores)
    have hff : (scores.filter p).filter p = scores.filter p :=
      List.filter_eq_self.mpr (fun a ha => (List.mem_filter.mp ha).2)
    have hsub2 : (scores.filter p).Sublist ((scores.mergeSort causesLE).filter p) := by
      have := hsub.filter p
      rwa [hff] at this
    have hlen : (scores.filter p).length = ((scores.mergeSort causesLE).filter p).length :=
      (((List.mergeSort_perm scores causesLE).filter p).length_eq).symm
    exact (hsub2.eq_of_length hlen).symm

/-- Characters produced by escaping one character: never a raw `<`, `>`,
double quote (codepoint 34) or apostrophe (codepoint 39). -/
theorem escChar_no_markup (a : Char) : ∀ c ∈ escChar a,
    c ≠ '<' ∧ c ≠ '>' ∧ c ≠ Char.ofNat 34 ∧ c ≠ Char.ofNat 39 := by
  intro c hc
  simp only [escChar] at hc
  split_ifs at hc with h1 h2 h3 h4 h5
  · exact (by decide :
      ∀ x ∈ ("&amp;" : String).data, x ≠ '<' ∧ x ≠ '>' ∧ x ≠ Char.ofNat 34 ∧ x ≠ Char.ofNat 39) c hc
  · exact (by decide :
      ∀ x ∈ ("&lt;" : String).data, x ≠ '<' ∧ x ≠ '>' ∧ x ≠ Char.ofNat 34 ∧ x ≠ Char.ofNat 39) c hc
  · exact (by decide :
      ∀ x ∈ ("&gt;" : String).data, x ≠ '<' ∧ x ≠ '>' ∧ x ≠ Char.ofNat 34 ∧ x ≠ Char.ofNat 39) c hc
  · exact (by decide :
      ∀ x ∈ ("&quot;" : String).data, x ≠ '<' ∧ x ≠ '>' ∧ x ≠ Char.ofNat 34 ∧ x ≠ Char.ofNat 39) c hc
  · exact (by decide :
      ∀ x ∈ ("&#39;" : String).data, x ≠ '<' ∧ x ≠ '>' ∧ x ≠ Char.ofNat 34 ∧ x ≠ Char.ofNat 39) c hc
  · have : c = a := by simpa using hc
    subst this
    exact ⟨h2, h3, h4, h5⟩

/-- C9: every user-supplied string reaching rendered markup — cause labels,
bullet (recommendation/note) strings, episode kind and timestamp strings —
is inserted as `escapeHtml` of the input; `escapeHtml` turns each of the five
markup characters into its entity, and its output never contains a raw `<`,
`>`, double quote or apostrophe. -/
theorem C9_escaping (s : String) :
    (∀ c ∈ (escapeHtml s).data,
        c ≠ '<' ∧ c ≠ '>' ∧ c ≠ Char.ofNat 34 ∧ c ≠ Char.ofNat 39) ∧
    escapeHtml "&" = "&amp;" ∧ escapeHtml "<" = "&lt;" ∧ escapeHtml ">" = "&gt;" ∧
    escapeHtml (String.mk [Char.ofNat 34]) = "&quot;" ∧
    escapeHtml (String.mk [Char.ofNat 39]) = "&#39;" ∧
    (∀ k v, causeRow k v =
      "<div class=\"row\"><span>" ++ escapeHtml (underscoreToSpace k) ++
        "</span><span class=\"val\">" ++ pct v ++ "</span></div>") ∧
    (∀ x, bulletLine x = "<li>" ++ escapeHtml x ++ "</li>") ∧
    (∀ e : Episode, episodeLine e =
      "<li><strong>" ++ escapeHtml e.kind ++ "</strong> — " ++
        escapeHtml (tsOrQuestion e.start_ts) ++ " → " ++
        escapeHtml (tsOrQuestion e.end_ts) ++ " (events=" ++ natRepr e.count ++ ")</li>") := by
  refine ⟨?_, by decide, by decide, by decide, by decide, by decide,
          fun k v => rfl, fun x => rfl, fun e => rfl⟩
  intro c hc
  have hc2 : c ∈ s.data.flatMap escChar := by simpa [escapeHtml] using hc
  obtain ⟨a, -, hmem⟩ := List.mem_flatMap.mp hc2
  exact escChar_no_markup a c hmem

/-- Witness for C9: the letter kept from escaping "<a>" is none of the raw
markup characters. -/
theorem C9_escaping_witness :
    ('a' ≠ '<' ∧ 'a' ≠ '>' ∧ 'a' ≠ Char.ofNat 34 ∧ 'a' ≠ Char.ofNat 39) :=
  (C9_escaping "<a>").1 'a' (by decide)
